import Mathlib

/-!
# Verification of `zipline/data/adjustments.py`

A shallow embedding of the adjustments writer/reader
(`SQLiteAdjustmentWriter` / `SQLiteAdjustmentReader`) together with proofs
about it.

Modelling conventions:
* pandas `DataFrame`s are modelled at two granularities:
  - a *schema* level (`Frame`: column names with numpy dtypes, plus a row
    count) used for the `_write` / `write_frame` validation logic, and
  - a *typed-row* level (lists of records) used for the value-carrying
    pipelines (`calc_dividend_ratios`, the dividend write path, the reader
    queries, and the round-trip through the store).
* machine floats (`float64`) are modelled as `ℚ`; the only arithmetic the
  code performs on them is `1.0 - amount / close`.
* datetimes are modelled by their integer value: `datetime64[ns]` columns as
  nanoseconds since the Unix epoch (UTC), stored date columns as whole
  seconds.  numpy's unit conversion `datetime64[ns] → datetime64[s]`
  truncates toward minus infinity, hence `Int.fdiv`.
* Python exceptions are modelled with `Except` / `Option`.
-/

namespace Zipline

/-- numpy dtypes that occur in this module (actual dtypes of columns). -/
inductive Dtype
  | int64
  | int32
  | uint32
  | uint64
  | float64
  | float32
  | datetime64
  | object_
deriving DecidableEq, Repr

/-- The *expected* column kinds appearing in the writer's dtype
dictionaries: `int64_dtype`, `float64_dtype`, and the Python builtin
`float` (which `np.issubdtype` treats as `np.floating`). -/
inductive ExpectedKind
  | eInt64
  | eFloat64
  | eFloat
deriving DecidableEq, Repr

/-- `np.issubdtype(actual, expected)` restricted to the dtypes used by this
module: an `int64` column satisfies `int64_dtype`, a `float64` column
satisfies `float64_dtype`, and any floating dtype satisfies the Python
builtin `float` (numpy reads it as `np.floating`). -/
def issubdtype : Dtype → ExpectedKind → Bool
  | .int64, .eInt64 => true
  | .float64, .eFloat64 => true
  | .float64, .eFloat => true
  | .float32, .eFloat => true
  | _, _ => false

/-- `SQLITE_ADJUSTMENT_COLUMN_DTYPES` (source lines 45-49), in Python dict
insertion order. -/
def SQLITE_ADJUSTMENT_COLUMN_DTYPES : List (String × ExpectedKind) :=
  [("effective_date", .eInt64), ("ratio", .eFloat64), ("sid", .eInt64)]

/-- `SQLITE_DIVIDEND_PAYOUT_COLUMN_DTYPES` (source lines 52-59). -/
def SQLITE_DIVIDEND_PAYOUT_COLUMN_DTYPES : List (String × ExpectedKind) :=
  [("sid", .eInt64), ("ex_date", .eInt64), ("declared_date", .eInt64),
   ("record_date", .eInt64), ("pay_date", .eInt64), ("amount", .eFloat)]

/-- `SQLITE_STOCK_DIVIDEND_PAYOUT_COLUMN_DTYPES` (source lines 62-70). -/
def SQLITE_STOCK_DIVIDEND_PAYOUT_COLUMN_DTYPES : List (String × ExpectedKind) :=
  [("sid", .eInt64), ("ex_date", .eInt64), ("declared_date", .eInt64),
   ("record_date", .eInt64), ("pay_date", .eInt64), ("payment_sid", .eInt64),
   ("ratio", .eFloat)]

/-- A pandas `DataFrame` at schema granularity: its columns (name and
dtype, in order) and its number of rows. -/
structure Frame where
  cols : List (String × Dtype)
  nrows : Nat
deriving DecidableEq, Repr

/-- pandas `DataFrame.empty`: true when either axis has length 0. -/
def Frame.isEmpty (f : Frame) : Bool :=
  f.cols.isEmpty || f.nrows == 0

/-- The Python exceptions raised on the write paths. -/
inductive WriteErr
  | valueError
  | typeError
  | keyError
deriving DecidableEq, Repr

/-- `frozenset(frame.columns) != frozenset(expected_dtypes)` (line 267):
equality of the two column-name sets. -/
def sameColumnSet (a b : List String) : Bool :=
  a.all (fun n => b.contains n) && b.all (fun n => a.contains n)

/-- The dtype check loop of `_write` (lines 277-288): every expected column's
actual dtype must be an `np.issubdtype` of the expected kind.  (A column
absent from the frame is unreachable here because `_write` has already
checked that the column sets coincide.) -/
def checkDtypes (expected : List (String × ExpectedKind))
    (cols : List (String × Dtype)) : Bool :=
  expected.all (fun ne =>
    match List.lookup ne.1 cols with
    | some d => issubdtype d ne.2
    | none => false)

/-- The empty frame `pd.DataFrame(np.array([], dtype=list(expected_dtypes
.items())))` built by `_write` for a `None`/empty input (lines 261-265):
declared columns in dict order, Python `float` realised as `float64`. -/
def emptyDeclaredFrame (expected : List (String × ExpectedKind)) : Frame :=
  ⟨expected.map (fun ne =>
    (ne.1, match ne.2 with
           | .eInt64 => Dtype.int64
           | .eFloat64 => Dtype.float64
           | .eFloat => Dtype.float64)), 0⟩

/-- `frame.to_sql(tablename, conn, if_exists='append', ...)` (lines
290-295) at schema granularity: a missing table is created with the frame's
schema; an existing table keeps its schema and gains the frame's rows. -/
def toSqlAppend (f : Frame) (t : Option Frame) : Frame :=
  match t with
  | none => f
  | some t => { t with nrows := t.nrows + f.nrows }

/-- `SQLiteAdjustmentWriter._write` (lines 260-295).  `t` is the current
state of the target table (`none` when it does not exist yet); on success
the new table state is returned, on a validation failure the exception is
returned and the table is untouched. -/
def _write (expected : List (String × ExpectedKind)) (frame : Option Frame)
    (t : Option Frame) : Except WriteErr Frame :=
  match frame with
  | none => .ok (toSqlAppend (emptyDeclaredFrame expected) t)
  | some f =>
    if f.isEmpty then
      .ok (toSqlAppend (emptyDeclaredFrame expected) t)
    else if !sameColumnSet (f.cols.map Prod.fst) (expected.map Prod.fst) then
      .error .valueError
    else if !checkDtypes expected f.cols then
      .error .typeError
    else
      .ok (toSqlAppend f t)

/-- The `effective_date` re-encoding of `write_frame` (lines 306-309):
`frame['effective_date'].values.astype('datetime64[s]').astype('int64')`.
At schema granularity the column's dtype becomes `int64`; when the column
is absent, `frame['effective_date']` raises `KeyError`. -/
def reencodeEffectiveDate (f : Frame) : Except WriteErr Frame :=
  match List.lookup "effective_date" f.cols with
  | none => .error .keyError
  | some _ =>
    .ok { f with cols := f.cols.map (fun nd =>
      if nd.1 = "effective_date" then (nd.1, Dtype.int64) else nd) }

/-- `SQLiteAdjustmentWriter.write_frame` (lines 297-314) at schema
granularity. -/
def write_frame (tablename : String) (frame : Option Frame)
    (t : Option Frame) : Except WriteErr Frame :=
  if ["splits", "dividends", "mergers"].contains tablename then
    match frame with
    | none => _write SQLITE_ADJUSTMENT_COLUMN_DTYPES none t
    | some f =>
      if f.isEmpty then
        _write SQLITE_ADJUSTMENT_COLUMN_DTYPES (some f) t
      else
        match reencodeEffectiveDate f with
        | .error e => .error e
        | .ok f' => _write SQLITE_ADJUSTMENT_COLUMN_DTYPES (some f') t
  else
    .error .valueError

/-- `SQLiteAdjustmentWriter.write_dividend_payouts` (lines 316-324) at
schema granularity. -/
def write_dividend_payouts (frame : Option Frame) (t : Option Frame) :
    Except WriteErr Frame :=
  _write SQLITE_DIVIDEND_PAYOUT_COLUMN_DTYPES frame t

/-- `SQLiteAdjustmentWriter.write_stock_dividend_payouts` (lines 326-331)
at schema granularity. -/
def write_stock_dividend_payouts (frame : Option Frame) (t : Option Frame) :
    Except WriteErr Frame :=
  _write SQLITE_STOCK_DIVIDEND_PAYOUT_COLUMN_DTYPES frame t

/-- `SQLiteAdjustmentReader.unpack_db_to_component_dfs` for a single table
(lines 191-208) at schema granularity: `read_sql` returns the stored frame;
with `convert_dates` the date-bearing columns are materialised as UTC
datetimes, otherwise the stored (integer) columns are returned unchanged. -/
def unpack_component (t : Frame) (dateCols : List String)
    (convertDates : Bool) : Frame :=
  if convertDates then
    { t with cols := t.cols.map (fun nd =>
        if dateCols.contains nd.1 then (nd.1, Dtype.datetime64) else nd) }
  else
    t

/-! ## Typed-row model of the dividend pipeline -/

/-- One row of a `dividends` payout frame as passed to
`write_dividend_data` / `calc_dividend_ratios`: date columns are
`datetime64[ns]` values (nanoseconds since epoch, tz-naive), `amount` a
`float64`. -/
structure PayoutRow where
  sid : Int
  ex_date : Int
  declared_date : Int
  record_date : Int
  pay_date : Int
  amount : ℚ
deriving DecidableEq, Repr

/-- A persisted `dividend_payouts` row after `_write_dividends` (lines
419-436) re-encoded every date column with
`.astype('datetime64[s]').astype(int64)`: whole seconds since epoch. -/
structure StoredPayoutRow where
  sid : Int
  ex_date : Int
  declared_date : Int
  record_date : Int
  pay_date : Int
  amount : ℚ
deriving DecidableEq, Repr

/-- numpy `datetime64[ns] → datetime64[s]` unit conversion: truncation
toward minus infinity of the nanosecond count. -/
def nsToSeconds (t : Int) : Int := Int.fdiv t (10 ^ 9)

/-- The per-row date encoding performed by `_write_dividends` (lines
423-434). -/
def encodePayout (r : PayoutRow) : StoredPayoutRow :=
  ⟨r.sid, nsToSeconds r.ex_date, nsToSeconds r.declared_date,
   nsToSeconds r.record_date, nsToSeconds r.pay_date, r.amount⟩

/-- Outcome of `equity_daily_bar_reader.get_value(sid, day, 'close')`:
the `NoDataOnDate` exception, a missing-value sentinel (`NaN`, detected by
the null check), or an actual close price. -/
inductive PriceResult
  | noDataOnDate
  | nullValue
  | price (c : ℚ)
deriving DecidableEq, Repr

/-- `tz_naive_calendar.get_indexer(ex_dates, method='bfill')` (line 377)
for one target against a monotone calendar: the position of the first
session at-or-after the target, or `-1` when every session is before it. -/
def bfillIndexer (cal : List Int) (t : Int) : Int :=
  match cal.findIdx? (fun s => t ≤ s) with
  | some i => (i : Int)
  | none => -1

/-- Scalar indexing `calendar[i]` with Python/numpy semantics: a negative
index counts from the end; out of bounds raises `IndexError` (`none`). -/
def pyGet (xs : List Int) (i : Int) : Option Int :=
  if 0 ≤ i then xs.get? i.toNat
  else if 0 ≤ (xs.length : Int) + i then xs.get? ((xs.length : Int) + i).toNat
  else none

/-- `prev_close_date = calendar[day_loc - 1]` (line 386), with `day_loc`
computed by the backward-fill indexer on the tz-naive view of the calendar
(line 377).  The tz-naive view (`calendar.tz_localize(None)`, line 376)
holds the same instants as the calendar itself, so both are `cal` here. -/
def refDay (cal : List Int) (exDate : Int) : Option Int :=
  pyGet cal (bfillIndexer cal exDate - 1)

/-- One entry of the `sids` / `effective_dates` / `ratios` working arrays
after the loop body ran for a row (lines 381-402): `effective_date` holds
the raw `ex_date` when a price was found, and the `-1` sentinel otherwise. -/
structure PendingRow where
  sid : Int
  effective_date : Int
  ratio : ℚ
deriving DecidableEq, Repr

/-- What the loop body of `calc_dividend_ratios` does for one payout row
(lines 381-402), with the intended null check in place of the erroneous
`np.isnull` (see `calc_dividend_ratios`). -/
inductive RowOutcome
  | indexError
  | warned
  | unresolved
  | resolved (row : PendingRow)
deriving DecidableEq, Repr

/-- The loop body for one row: fetch `calendar[day_loc - 1]` (an
out-of-bounds index raises), fetch the close; `NoDataOnDate` logs a warning
and skips the row; a null close leaves the row unresolved; otherwise the
ratio `1.0 - amount / prev_close` is recorded with the raw `ex_date` as
effective date. -/
def rowOutcome (cal : List Int) (getValue : Int → Int → PriceResult)
    (r : PayoutRow) : RowOutcome :=
  match refDay cal r.ex_date with
  | none => .indexError
  | some d =>
    match getValue r.sid d with
    | .noDataOnDate => .warned
    | .nullValue => .unresolved
    | .price c => .resolved ⟨r.sid, r.ex_date, 1 - r.amount / c⟩

/-- A row of the frame returned by `calc_dividend_ratios`: `sid` (int64),
`effective_date` re-encoded to `uint32` whole seconds (lines 408-409), and
the `float64` ratio. -/
structure RatioRow where
  sid : Int
  effective_date : Nat
  ratio : ℚ
deriving DecidableEq, Repr

/-- Lines 408-409: `effective_dates.astype('datetime64[ns]')
.astype('datetime64[s]').astype(uint32)` — truncate the nanosecond value to
whole seconds, then wrap into the unsigned 32-bit range. -/
def encodeEffDate (t : Int) : Nat :=
  ((nsToSeconds t) % (2 ^ 32)).toNat

/-- The value returned by a successful `calc_dividend_ratios` run together
with the warnings it logged (each identifying the row's sid, ex_date and
amount, line 397-401). -/
structure CalcResult where
  warnings : List (Int × Int × ℚ)
  rows : List RatioRow
deriving DecidableEq, Repr

/-- Exceptions that can escape `calc_dividend_ratios`. -/
inductive CalcErr
  | attributeError
  | indexError
deriving DecidableEq, Repr

/-- The loop of lines 381-402 over all rows, producing the logged warnings
and the per-row array entries; an `IndexError` from `calendar[day_loc - 1]`
aborts the loop. -/
def calcLoop (cal : List Int) (getValue : Int → Int → PriceResult) :
    List PayoutRow → Except CalcErr (List (Int × Int × ℚ) × List PendingRow)
  | [] => .ok ([], [])
  | r :: rest =>
    match rowOutcome cal getValue r with
    | .indexError => .error .indexError
    | .warned =>
      match calcLoop cal getValue rest with
      | .error e => .error e
      -- the warned row's array entries keep the -1 sentinel (and a NaN
      -- ratio, irrelevant because the row is masked out below)
      | .ok (ws, ps) => .ok ((r.sid, r.ex_date, r.amount) :: ws,
                             ⟨r.sid, -1, 0⟩ :: ps)
    | .unresolved =>
      match calcLoop cal getValue rest with
      | .error e => .error e
      | .ok (ws, ps) => .ok (ws, ⟨r.sid, -1, 0⟩ :: ps)
    | .resolved p =>
      match calcLoop cal getValue rest with
      | .error e => .error e
      | .ok (ws, ps) => .ok (ws, p :: ps)

/-- The mask-and-encode epilogue of `calc_dividend_ratios` (lines 404-417):
drop every array entry whose `effective_date` still holds the `-1`
sentinel, then re-encode the surviving effective dates as `uint32`
seconds. -/
def maskAndEncode (ps : List PendingRow) : List RatioRow :=
  (ps.filter (fun p => p.effective_date ≠ -1)).map
    (fun p => ⟨p.sid, encodeEffDate p.effective_date, p.ratio⟩)

/-- `SQLiteAdjustmentWriter.calc_dividend_ratios` (lines 333-417) **as
written**: the empty-input early return (lines 347-355) works, but for any
non-empty input line 379 executes `isnull = np.isnull`, and since numpy has
no attribute `isnull` (the intended function is `pd.isnull`) this raises
`AttributeError` before the loop runs — `day_locs` (line 377) is computed,
but no row is ever processed. -/
def calc_dividend_ratios (_cal : List Int)
    (_getValue : Int → Int → PriceResult) (dividends : List PayoutRow) :
    Except CalcErr CalcResult :=
  if dividends.isEmpty then
    .ok ⟨[], []⟩
  else
    .error .attributeError

/-- `calc_dividend_ratios` with line 379 read as the clearly intended
`isnull = pd.isnull`: the full loop, mask and uint32 re-encoding. -/
def calc_dividend_ratios_intended (cal : List Int)
    (getValue : Int → Int → PriceResult) (dividends : List PayoutRow) :
    Except CalcErr CalcResult :=
  if dividends.isEmpty then
    .ok ⟨[], []⟩
  else
    match calcLoop cal getValue dividends with
    | .error e => .error e
    | .ok (ws, ps) => .ok ⟨ws, maskAndEncode ps⟩

/-- A persisted row of the derived `dividends` table.  `write_frame`
re-encodes the `uint32` effective dates with
`.astype('datetime64[s]').astype('int64')` (lines 307-309), which on the
`uint32` range is the numeric identity into `int64`. -/
structure StoredDividendRow where
  sid : Int
  effective_date : Int
  ratio : ℚ
deriving DecidableEq, Repr

/-- The value-level effect of `write_frame('dividends', ...)` on one ratio
row. -/
def storeRatioRow (r : RatioRow) : StoredDividendRow :=
  ⟨r.sid, (r.effective_date : Int), r.ratio⟩

/-- The tables touched by `write_dividend_data`, at typed-row granularity
(the `stock_dividend_payouts` table, written from the separate
`stock_dividends` argument, is not modelled — the claims under study pass
`stock_dividends=None`). -/
structure AdjDB where
  dividend_payouts : List StoredPayoutRow
  dividends : List StoredDividendRow
deriving DecidableEq, Repr

/-- `SQLiteAdjustmentWriter.write_dividend_data` (lines 457-468): first the
payout rows are persisted (date-encoded) into `dividend_payouts`, then the
ratios are derived and appended to `dividends`.  The returned state is the
database after the call — when `calc_dividend_ratios` raises, the payouts
written in the first step are already persisted and the error escapes. -/
def write_dividend_data (cal : List Int)
    (getValue : Int → Int → PriceResult) (dividends : List PayoutRow)
    (db : AdjDB) : AdjDB × Except CalcErr Unit :=
  let db1 : AdjDB :=
    { db with dividend_payouts :=
        db.dividend_payouts ++ dividends.map encodePayout }
  match calc_dividend_ratios cal getValue dividends with
  | .error e => (db1, .error e)
  | .ok res =>
    ({ db1 with dividends := db1.dividends ++ res.rows.map storeRatioRow },
     .ok ())

/-- `write_dividend_data` with the intended null check (see
`calc_dividend_ratios_intended`). -/
def write_dividend_data_intended (cal : List Int)
    (getValue : Int → Int → PriceResult) (dividends : List PayoutRow)
    (db : AdjDB) : AdjDB × Except CalcErr Unit :=
  let db1 : AdjDB :=
    { db with dividend_payouts :=
        db.dividend_payouts ++ dividends.map encodePayout }
  match calc_dividend_ratios_intended cal getValue dividends with
  | .error e => (db1, .error e)
  | .ok res =>
    ({ db1 with dividends := db1.dividends ++ res.rows.map storeRatioRow },
     .ok ())

/-! ## Reader model: `get_dividends_with_ex_date` -/

/-- The `Dividend` namedtuple (line 32): the resolved asset, the cash
amount, and the pay date as a UTC `Timestamp` (nanosecond value,
`Timestamp(seconds, unit='s', tz='UTC')`). -/
structure DividendT (α : Type) where
  asset : α
  amount : ℚ
  pay_date : Int
deriving DecidableEq, Repr

/-- Modelled from the spec: `group_into_chunks` lives in
`zipline.utils.sqlite_utils`, which is not under `src/`.  Per spec §4.3 and
§6 it partitions the asset sequence into fixed-size chunks whose size is
the backend's maximum bound-parameter count; one query is issued per chunk
and the per-chunk results are concatenated.  The chunk size is `k + 1`
(so it is always positive). -/
def group_into_chunks (k : Nat) : List Int → List (List Int)
  | [] => []
  | x :: xs => (x :: xs.take k) :: group_into_chunks k (xs.drop k)
termination_by xs => xs.length
decreasing_by
  simp only [List.length_drop, List.length_cons]
  omega

/-- The WHERE clause of `UNPAID_QUERY_TEMPLATE` (lines 27-30) for one
chunk: `ex_date=? AND sid IN (chunk)`.  The bound `ex_date` parameter is
`date.value / int(1e9)` (line 126), a true division, so the stored integer
seconds must equal the exact rational `dateNs / 10^9`. -/
def matchesQuery (dateNs : Int) (chunk : List Int) (r : StoredPayoutRow) :
    Bool :=
  ((r.ex_date : ℚ) = (dateNs : ℚ) / (10 ^ 9 : ℚ)) && chunk.contains r.sid

/-- The rows fetched over all chunks, in per-chunk concatenation order
(lines 130-137). -/
def fetchedRows (k : Nat) (tbl : List StoredPayoutRow) (assets : List Int)
    (dateNs : Int) : List StoredPayoutRow :=
  (group_into_chunks k assets).flatMap
    (fun chunk => tbl.filter (matchesQuery dateNs chunk))

/-- The per-row construction of `Dividend` namedtuples (lines 138-142):
`asset_finder.retrieve_asset(row[0])` may raise (`none`), which aborts the
whole call with the exception propagating. -/
def resolveRows {α : Type} (resolver : Int → Option α) :
    List StoredPayoutRow → Option (List (DividendT α))
  | [] => some []
  | r :: rs =>
    match resolver r.sid with
    | none => none
    | some a =>
      match resolveRows resolver rs with
      | none => none
      | some ds => some (⟨a, r.amount, r.pay_date * 10 ^ 9⟩ :: ds)

/-- The observable outcome of one reader call: whether `c.close()` ran
before the call returned, and the returned value or the escaped
exception. -/
structure ReadOutcome (α : Type) where
  cursorClosed : Bool
  result : Except Unit (List (DividendT α))

/-- `SQLiteAdjustmentReader.get_dividends_with_ex_date` (lines 125-145).
The cursor is opened, each chunk is queried and its rows resolved into
`Dividend` tuples, and `c.close()` runs only on the straight-line path
after the loop — an exception from per-row asset resolution skips it. -/
def get_dividends_with_ex_date {α : Type} (k : Nat)
    (tbl : List StoredPayoutRow) (resolver : Int → Option α)
    (assets : List Int) (dateNs : Int) : ReadOutcome α :=
  match resolveRows resolver (fetchedRows k tbl assets dateNs) with
  | none => ⟨false, .error ()⟩
  | some ds => ⟨true, .ok ds⟩

/-- The list returned by `get_dividends_with_ex_date` when every asset id
resolves (resolver `fun s => some (f s)`). -/
def get_dividends_with_ex_date_total {α : Type} (k : Nat)
    (tbl : List StoredPayoutRow) (f : Int → α) (assets : List Int)
    (dateNs : Int) : List (DividendT α) :=
  (fetchedRows k tbl assets dateNs).map
    (fun r => ⟨f r.sid, r.amount, r.pay_date * 10 ^ 9⟩)

/-! ## Value-level round trip: write a batch, export it back -/

/-- One row of a splits/mergers batch as handed to `write_frame`:
`effective_date` a `datetime64[ns]` value, `ratio` a `float64`. -/
structure SplitRow where
  sid : Int
  effective_date : Int
  ratio : ℚ
deriving DecidableEq, Repr

/-- A persisted splits/mergers row: `effective_date` as whole seconds. -/
structure StoredSplitRow where
  sid : Int
  effective_date : Int
  ratio : ℚ
deriving DecidableEq, Repr

/-- The value-level effect of `write_frame` on one splits/mergers row
(lines 306-309): `effective_date` truncated to whole seconds. -/
def encodeSplitRow (r : SplitRow) : StoredSplitRow :=
  ⟨r.sid, nsToSeconds r.effective_date, r.ratio⟩

/-- `write_frame` appending a splits/mergers batch, at value level. -/
def write_frame_rows (batch : List SplitRow) (t : List StoredSplitRow) :
    List StoredSplitRow :=
  t ++ batch.map encodeSplitRow

/-- `unpack_db_to_component_dfs(convert_dates=True)` decoding one stored
splits/mergers row (lines 191-208): the integer-seconds date column is
parsed with `unit='s', utc=True`, i.e. the UTC instant `s * 10^9` ns. -/
def decodeSplitRow (s : StoredSplitRow) : SplitRow :=
  ⟨s.sid, s.effective_date * 10 ^ 9, s.ratio⟩

/-- Export of the whole stored splits/mergers table with
`convert_dates=True`. -/
def unpack_split_rows (t : List StoredSplitRow) : List SplitRow :=
  t.map decodeSplitRow

/-- `write_dividend_payouts` appending a payout batch at value level
(dates re-encoded by `_write_dividends`, lines 419-436). -/
def write_payout_rows (batch : List PayoutRow) (t : List StoredPayoutRow) :
    List StoredPayoutRow :=
  t ++ batch.map encodePayout

/-- Export of one stored payout row with `convert_dates=True`: all four
date columns come back as UTC instants in nanoseconds. -/
def decodePayoutRow (s : StoredPayoutRow) : PayoutRow :=
  ⟨s.sid, s.ex_date * 10 ^ 9, s.declared_date * 10 ^ 9,
   s.record_date * 10 ^ 9, s.pay_date * 10 ^ 9, s.amount⟩

/-- Export of the whole stored `dividend_payouts` table with
`convert_dates=True`. -/
def unpack_payout_rows (t : List StoredPayoutRow) : List PayoutRow :=
  t.map decodePayoutRow

/-- Truncation of a `datetime64[ns]` instant to whole seconds. -/
def truncToSeconds (t : Int) : Int := nsToSeconds t * 10 ^ 9

/-! ## Supporting lemmas -/

/-- Chunking loses no element and invents none: concatenating the chunks
gives back the original list. -/
theorem flatten_group_into_chunks (k : Nat) :
    ∀ (n : Nat) (xs : List Int), xs.length ≤ n →
      (group_into_chunks k xs).flatten = xs := by
  intro n
  induction n with
  | zero =>
    intro xs h
    cases xs with
    | nil => simp [group_into_chunks]
    | cons x xs => simp at h
  | succ n ih =>
    intro xs h
    cases xs with
    | nil => simp [group_into_chunks]
    | cons x xs =>
      rw [group_into_chunks]
      simp only [List.flatten_cons]
      rw [ih (xs.drop k)]
      · simp [List.cons_append, List.take_append_drop]
      · simp only [List.length_drop]
        simp only [List.length_cons] at h
        omega

/-- Membership in the rows fetched over all chunks: exactly the stored
rows whose `ex_date` matches the query date and whose `sid` lies in the
requested asset list. -/
theorem mem_fetchedRows (k : Nat) (tbl : List StoredPayoutRow)
    (assets : List Int) (dateNs : Int) (r : StoredPayoutRow) :
    r ∈ fetchedRows k tbl assets dateNs ↔
      r ∈ tbl ∧ (r.ex_date : ℚ) = (dateNs : ℚ) / (10 ^ 9 : ℚ) ∧
        r.sid ∈ assets := by
  unfold fetchedRows
  rw [List.mem_flatMap]
  constructor
  · rintro ⟨chunk, hchunk, hr⟩
    rw [List.mem_filter] at hr
    unfold matchesQuery at hr
    obtain ⟨hmem, hq⟩ := hr
    rw [Bool.and_eq_true, decide_eq_true_eq, List.contains, List.elem_iff]
      at hq
    refine ⟨hmem, hq.1, ?_⟩
    have : r.sid ∈ (group_into_chunks k assets).flatten :=
      List.mem_flatten.mpr ⟨chunk, hchunk, hq.2⟩
    rwa [flatten_group_into_chunks k assets.length assets le_rfl] at this
  · rintro ⟨hmem, hdate, hsid⟩
    have : r.sid ∈ (group_into_chunks k assets).flatten := by
      rwa [flatten_group_into_chunks k assets.length assets le_rfl]
    obtain ⟨chunk, hchunk, hin⟩ := List.mem_flatten.mp this
    refine ⟨chunk, hchunk, ?_⟩
    rw [List.mem_filter]
    refine ⟨hmem, ?_⟩
    unfold matchesQuery
    rw [Bool.and_eq_true, decide_eq_true_eq, List.contains, List.elem_iff]
    exact ⟨hdate, hin⟩

/-- With a resolver that always succeeds, the row-resolution loop never
raises and returns the mapped rows. -/
theorem resolveRows_total {α : Type} (f : Int → α) :
    ∀ rs : List StoredPayoutRow,
      resolveRows (fun s => some (f s)) rs =
        some (rs.map (fun r => ⟨f r.sid, r.amount, r.pay_date * 10 ^ 9⟩)) := by
  intro rs
  induction rs with
  | nil => rfl
  | cons r rs ih => simp [resolveRows, ih]

/-- `encodeEffDate` lands in the unsigned 32-bit range. -/
theorem encodeEffDate_lt (t : Int) : encodeEffDate t < 2 ^ 32 := by
  unfold encodeEffDate
  omega

/-- After `reencodeEffectiveDate`, the `effective_date` column (when the
input had one) carries dtype `int64`. -/
theorem lookup_reencode (cols : List (String × Dtype)) (d : Dtype)
    (h : List.lookup "effective_date" cols = some d) :
    List.lookup "effective_date"
      (cols.map (fun nd =>
        if nd.1 = "effective_date" then (nd.1, Dtype.int64) else nd)) =
      some Dtype.int64 := by
  induction cols with
  | nil => simp [List.lookup] at h
  | cons nd rest ih =>
    obtain ⟨n, dt⟩ := nd
    rw [List.lookup] at h
    by_cases hname : n = "effective_date"
    · subst hname
      simp [List.lookup]
    · have hbeq : ("effective_date" == n) = false := by
        simp only [beq_eq_false_iff_ne, ne_eq]
        exact fun hc => hname hc.symm
      rw [hbeq] at h
      simp only [List.map_cons]
      have hkeep :
          (if (n, dt).1 = "effective_date"
           then ((n, dt).1, Dtype.int64) else (n, dt)) = (n, dt) := by
        simp [hname]
      rw [hkeep, List.lookup, hbeq]
      exact ih h

/-- A successful `_write` of a non-empty frame appends that frame itself:
the validation passed and `to_sql` ran on it. -/
theorem _write_ok_nonempty (expected : List (String × ExpectedKind))
    (f : Frame) (t : Option Frame) (s : Frame) (hne : f.isEmpty = false)
    (h : _write expected (some f) t = Except.ok s) : s = toSqlAppend f t := by
  simp only [_write, hne, Bool.false_eq_true, if_false] at h
  split at h
  · simp at h
  · split at h
    · simp at h
    · exact (Except.ok.inj h).symm

/-! ## Claim theorems -/

/-- Claim C1: the spec says a payout row with a found, non-null prior close
`c` yields a ratio row with ratio exactly `1.0 - amount / c` (and `1.0` for
amount `0`).  The code cannot do this: for any non-empty payout batch
`calc_dividend_ratios` raises `AttributeError` at `isnull = np.isnull`
(line 379; numpy has no `isnull`) before any row is processed, so no ratio
row is ever produced.  Under the clearly intended `pd.isnull`, the claimed
formula does hold: with prior close 50 the amounts 1/2 and 0 give ratios
99/100 and 1. -/
theorem C1_ratio_formula :
    calc_dividend_ratios [100, 200]
        (fun sid d => if sid = 42 ∧ d = 100 then .price 50 else .noDataOnDate)
        [⟨42, 150, 0, 0, 0, 1/2⟩, ⟨42, 150, 0, 0, 0, 0⟩]
      = .error .attributeError
    ∧ calc_dividend_ratios_intended [100, 200]
        (fun sid d => if sid = 42 ∧ d = 100 then .price 50 else .noDataOnDate)
        [⟨42, 150, 0, 0, 0, 1/2⟩, ⟨42, 150, 0, 0, 0, 0⟩]
      = .ok ⟨[], [⟨42, 0, 1 - (1/2) / 50⟩, ⟨42, 0, 1 - 0 / 50⟩]⟩
    ∧ (1 : ℚ) - (1/2) / 50 = 99/100
    ∧ (1 : ℚ) - 0 / 50 = 1 :=
  ⟨rfl, rfl, by norm_num, by norm_num⟩

/-- Claim C2: the spec says a payout whose price lookup signals no data is
logged, excluded from the ratio table, and aborts nothing.  In the code any
non-empty batch raises `AttributeError` at `isnull = np.isnull` (line 379)
before the `NoDataOnDate` handler can run, so the exception escapes
`calc_dividend_ratios` and aborts `write_dividend_data` — though the payout
row has by then already been persisted in `dividend_payouts`.  Under the
intended `pd.isnull`, the claimed behaviour holds: the row is warned about
(identified by sid, ex_date, amount), excluded from the ratio rows, the
payout is persisted, and the write completes. -/
theorem C2_missing_price_recovery :
    write_dividend_data [100, 200] (fun _ _ => .noDataOnDate)
        [⟨7, 150, 10, 20, 30, 3⟩] ⟨[], []⟩
      = (⟨[⟨7, 0, 0, 0, 0, 3⟩], []⟩, .error .attributeError)
    ∧ write_dividend_data_intended [100, 200] (fun _ _ => .noDataOnDate)
        [⟨7, 150, 10, 20, 30, 3⟩] ⟨[], []⟩
      = (⟨[⟨7, 0, 0, 0, 0, 3⟩], []⟩, .ok ())
    ∧ calc_dividend_ratios_intended [100, 200] (fun _ _ => .noDataOnDate)
        [⟨7, 150, 10, 20, 30, 3⟩]
      = .ok ⟨[(7, 150, 3)], []⟩ :=
  ⟨rfl, rfl, rfl⟩

/-- Claim C3: the spec says the pricing reference day is found by a
backward-fill lookup of the session at-or-after the ex-date, stepping back
one session, and the close is fetched for (sid, that prior session).  The
code computes `day_locs` (line 377) but raises `AttributeError` at
`isnull = np.isnull` (line 379) before the loop, so no close is ever
fetched.  Under the intended `pd.isnull` the described mechanism holds: for
calendar `[100, 200, 300]` and ex-date 250 the backward-fill index is 2
(sessions 100 and 200 are before 250, session 300 at-or-after), the
reference day is session 200, and the ratio is computed from the close that
the price store serves only at (5, 200). -/
theorem C3_reference_day :
    bfillIndexer [100, 200, 300] 250 = 2
    ∧ ((100 : Int) < 250 ∧ (200 : Int) < 250 ∧ (250 : Int) ≤ 300)
    ∧ refDay [100, 200, 300] 250 = some 200
    ∧ calc_dividend_ratios [100, 200, 300]
        (fun sid d => if sid = 5 ∧ d = 200 then .price 8 else .noDataOnDate)
        [⟨5, 250, 0, 0, 0, 2⟩]
      = .error .attributeError
    ∧ calc_dividend_ratios_intended [100, 200, 300]
        (fun sid d => if sid = 5 ∧ d = 200 then .price 8 else .noDataOnDate)
        [⟨5, 250, 0, 0, 0, 2⟩]
      = .ok ⟨[], [⟨5, 0, 1 - 2 / 8⟩]⟩ :=
  ⟨rfl, by norm_num, rfl, rfl, rfl⟩

/-- Claim C10: the claim says that for an ex-date at or before the first
session (backward-fill index 0) the index `0 - 1 = -1` silently selects the
final session and the close is fetched there.  The indexing indeed wraps to
the final session without an out-of-bounds error — `refDay` of ex-date 50
against `[100, 200, 300]` is session 300, the calendar's last — but the
code never reaches the fetch: it raises `AttributeError` at
`isnull = np.isnull` (line 379) before the loop.  Under the intended
`pd.isnull` the claimed (mis)behaviour manifests: the ratio is computed
from the close that the price store serves only at the final session. -/
theorem C10_exdate_before_calendar :
    bfillIndexer [100, 200, 300] 50 = 0
    ∧ refDay [100, 200, 300] 50 = some 300
    ∧ ([100, 200, 300] : List Int).getLast? = some 300
    ∧ calc_dividend_ratios [100, 200, 300]
        (fun sid d => if sid = 9 ∧ d = 300 then .price 4 else .noDataOnDate)
        [⟨9, 50, 0, 0, 0, 1⟩]
      = .error .attributeError
    ∧ calc_dividend_ratios_intended [100, 200, 300]
        (fun sid d => if sid = 9 ∧ d = 300 then .price 4 else .noDataOnDate)
        [⟨9, 50, 0, 0, 0, 1⟩]
      = .ok ⟨[], [⟨9, 0, 1 - 1 / 4⟩]⟩ :=
  ⟨rfl, rfl, rfl, rfl, rfl⟩

/-- Claim C4, counterexample: a non-empty batch whose column set lacks
`effective_date`, passed to the table write `write_frame`, raises
`KeyError` (from `frame['effective_date']`, line 307) — not the ValueError
or TypeError the claim allows. -/
theorem C4_counterexample :
    write_frame "splits"
        (some ⟨[("sid", .int64), ("ratio", .float64)], 2⟩) none
      = .error .keyError
    ∧ WriteErr.keyError ≠ WriteErr.valueError
    ∧ WriteErr.keyError ≠ WriteErr.typeError :=
  ⟨rfl, by decide, by decide⟩

/-- Claim C4 as amended: for a non-empty batch, `_write` rejects a
column-set mismatch with ValueError and a dtype mismatch with TypeError
before any row is appended (on the error path no table state is produced,
so the target table is unchanged); additionally `write_frame` on a
non-empty batch lacking the `effective_date` column raises `KeyError` from
the date re-encoding step before validation, likewise appending nothing. -/
theorem C4_schema_rejection_amended :
    (∀ (expected : List (String × ExpectedKind)) (f : Frame)
        (t : Option Frame), f.isEmpty = false →
      (sameColumnSet (f.cols.map Prod.fst) (expected.map Prod.fst) = false
        ∨ checkDtypes expected f.cols = false) →
      _write expected (some f) t = .error .valueError
      ∨ _write expected (some f) t = .error .typeError)
    ∧ (∀ (f : Frame) (t : Option Frame), f.isEmpty = false →
      List.lookup "effective_date" f.cols = none →
      write_frame "splits" (some f) t = .error .keyError) := by
  constructor
  · intro expected f t hne hbad
    by_cases hcols :
        sameColumnSet (f.cols.map Prod.fst) (expected.map Prod.fst) = true
    · right
      have hdt : checkDtypes expected f.cols = false := by
        cases hbad with
        | inl h => rw [h] at hcols; exact absurd hcols (by simp)
        | inr h => exact h
      simp [_write, hne, hcols, hdt]
    · left
      have hc : sameColumnSet (f.cols.map Prod.fst) (expected.map Prod.fst)
          = false := by
        simpa using hcols
      simp [_write, hne, hc]
  · intro f t hne hlook
    simp [write_frame, hne, reencodeEffectiveDate, hlook]

/-- Witness for the amended C4: a batch with a wrongly-typed `ratio`
column is rejected by `_write`, and a batch lacking `effective_date` makes
`write_frame` raise `KeyError`. -/
theorem C4_schema_rejection_witness :
    (_write SQLITE_ADJUSTMENT_COLUMN_DTYPES
        (some ⟨[("effective_date", .int64), ("ratio", .int64),
                ("sid", .int64)], 1⟩) none
      = .error .valueError
    ∨ _write SQLITE_ADJUSTMENT_COLUMN_DTYPES
        (some ⟨[("effective_date", .int64), ("ratio", .int64),
                ("sid", .int64)], 1⟩) none
      = .error .typeError)
    ∧ write_frame "splits" (some ⟨[("sid", .int64)], 1⟩) none
      = .error .keyError :=
  ⟨C4_schema_rejection_amended.1 _ _ _ (by decide) (Or.inr (by decide)),
   C4_schema_rejection_amended.2 _ _ (by decide) (by decide)⟩

/-- Claim C5: with every asset id resolving, `get_dividends_with_ex_date`
returns (without exception, cursor closed) exactly the stored
`dividend_payouts` rows whose `ex_date` matches the requested date and
whose `sid` is among the requested assets, and — as a set of rows — the
chunked multi-asset query equals the union of one query per asset. -/
theorem C5_chunked_query {α : Type} (k : Nat) (tbl : List StoredPayoutRow)
    (assets : List Int) (dateNs : Int) (f : Int → α) (d : DividendT α) :
    get_dividends_with_ex_date k tbl (fun s => some (f s)) assets dateNs
      = ⟨true, .ok (get_dividends_with_ex_date_total k tbl f assets dateNs)⟩
    ∧ (d ∈ get_dividends_with_ex_date_total k tbl f assets dateNs ↔
        ∃ r ∈ tbl, (r.ex_date : ℚ) = (dateNs : ℚ) / (10 ^ 9 : ℚ)
          ∧ r.sid ∈ assets ∧ d = ⟨f r.sid, r.amount, r.pay_date * 10 ^ 9⟩)
    ∧ (d ∈ get_dividends_with_ex_date_total k tbl f assets dateNs ↔
        d ∈ assets.flatMap
          (fun a => get_dividends_with_ex_date_total k tbl f [a] dateNs)) := by
  have hchar : ∀ as : List Int,
      d ∈ get_dividends_with_ex_date_total k tbl f as dateNs ↔
        ∃ r ∈ tbl, (r.ex_date : ℚ) = (dateNs : ℚ) / (10 ^ 9 : ℚ)
          ∧ r.sid ∈ as ∧ d = ⟨f r.sid, r.amount, r.pay_date * 10 ^ 9⟩ := by
    intro as
    unfold get_dividends_with_ex_date_total
    rw [List.mem_map]
    constructor
    · rintro ⟨r, hr, hd⟩
      rw [mem_fetchedRows] at hr
      exact ⟨r, hr.1, hr.2.1, hr.2.2, hd.symm⟩
    · rintro ⟨r, hr, hq, hs, hd⟩
      exact ⟨r, (mem_fetchedRows k tbl as dateNs r).mpr ⟨hr, hq, hs⟩, hd.symm⟩
  refine ⟨?_, hchar assets, ?_⟩
  · unfold get_dividends_with_ex_date get_dividends_with_ex_date_total
    rw [resolveRows_total]
  · rw [hchar assets, List.mem_flatMap]
    constructor
    · rintro ⟨r, hr, hq, hs, hd⟩
      exact ⟨r.sid, hs,
        (hchar [r.sid]).mpr ⟨r, hr, hq, by simp, hd⟩⟩
    · rintro ⟨a, ha, hin⟩
      obtain ⟨r, hr, hq, hs, hd⟩ := (hchar [a]).mp hin
      have hra : r.sid = a := by simpa using hs
      exact ⟨r, hr, hq, hra ▸ ha, hd⟩

/-- Claim C6: writing a splits/mergers batch or a dividend-payout batch
into a fresh table and exporting it back with `convert_dates` yields the
same (sid, date, ratio/amount) tuples, every date column recovered as the
original UTC instant truncated to whole seconds. -/
theorem C6_round_trip (sb : List SplitRow) (pb : List PayoutRow) :
    unpack_split_rows (write_frame_rows sb [])
      = sb.map (fun r => ⟨r.sid, truncToSeconds r.effective_date, r.ratio⟩)
    ∧ unpack_payout_rows (write_payout_rows pb [])
      = pb.map (fun r => ⟨r.sid, truncToSeconds r.ex_date,
          truncToSeconds r.declared_date, truncToSeconds r.record_date,
          truncToSeconds r.pay_date, r.amount⟩) := by
  refine ⟨?_, ?_⟩ <;>
    simp only [unpack_split_rows, write_frame_rows, unpack_payout_rows,
      write_payout_rows, List.nil_append, List.map_map] <;>
    rfl

/-- Claim C7: writing `None` (or an empty batch) for any of the five
tables creates the table with zero rows and exactly the declared columns
and kinds; a subsequent raw export returns that empty, correctly-typed
table; and `calc_dividend_ratios` on an empty payout batch returns an
empty ratio batch (as does the intended variant). -/
theorem C7_empty_batch :
    write_frame "splits" none none
      = .ok ⟨[("effective_date", .int64), ("ratio", .float64),
              ("sid", .int64)], 0⟩
    ∧ write_frame "mergers" none none
      = .ok ⟨[("effective_date", .int64), ("ratio", .float64),
              ("sid", .int64)], 0⟩
    ∧ write_frame "dividends" none none
      = .ok ⟨[("effective_date", .int64), ("ratio", .float64),
              ("sid", .int64)], 0⟩
    ∧ write_frame "splits"
        (some ⟨[("effective_date", .int64), ("ratio", .float64),
                ("sid", .int64)], 0⟩) none
      = .ok ⟨[("effective_date", .int64), ("ratio", .float64),
              ("sid", .int64)], 0⟩
    ∧ write_dividend_payouts none none
      = .ok ⟨[("sid", .int64), ("ex_date", .int64), ("declared_date", .int64),
              ("record_date", .int64), ("pay_date", .int64),
              ("amount", .float64)], 0⟩
    ∧ write_stock_dividend_payouts none none
      = .ok ⟨[("sid", .int64), ("ex_date", .int64), ("declared_date", .int64),
              ("record_date", .int64), ("pay_date", .int64),
              ("payment_sid", .int64), ("ratio", .float64)], 0⟩
    ∧ unpack_component
        ⟨[("effective_date", .int64), ("ratio", .float64),
          ("sid", .int64)], 0⟩ ["effective_date"] false
      = ⟨[("effective_date", .int64), ("ratio", .float64),
          ("sid", .int64)], 0⟩
    ∧ (∀ (cal : List Int) (gv : Int → Int → PriceResult),
        calc_dividend_ratios cal gv [] = .ok ⟨[], []⟩
        ∧ calc_dividend_ratios_intended cal gv [] = .ok ⟨[], []⟩) :=
  ⟨rfl, rfl, rfl, rfl, rfl, rfl, rfl, fun _ _ => ⟨rfl, rfl⟩⟩

/-- Claim C8, counterexample: the frame produced by `calc_dividend_ratios`
does carry a `uint32` `effective_date`, but `write_frame` re-encodes the
column to `int64` (lines 307-309) before persisting, so the *stored*
`dividends` table holds `effective_date` as a signed 64-bit integer, not
the 32-bit unsigned integer the claim states. -/
theorem C8_counterexample :
    write_frame "dividends"
        (some ⟨[("sid", .int64), ("effective_date", .uint32),
                ("ratio", .float64)], 1⟩) none
      = .ok ⟨[("sid", .int64), ("effective_date", .int64),
              ("ratio", .float64)], 1⟩
    ∧ Dtype.int64 ≠ Dtype.uint32 :=
  ⟨rfl, by decide⟩

/-- Claim C8 as amended: the `uint32` encoding of `effective_date` is an
in-memory intermediate of `calc_dividend_ratios` (every produced
`effective_date` lies in the unsigned 32-bit range); any non-empty frame
that `write_frame('dividends', ...)` accepts into a fresh table is
persisted with `effective_date` as `int64` whole seconds, like every other
stored date column, while ratios/amounts are 64-bit floats. -/
theorem C8_storage_encoding_amended :
    (∀ (f s : Frame), f.isEmpty = false →
      write_frame "dividends" (some f) none = .ok s →
      List.lookup "effective_date" s.cols = some Dtype.int64)
    ∧ (∀ (cal : List Int) (gv : Int → Int → PriceResult)
        (divs : List PayoutRow) (res : CalcResult),
        calc_dividend_ratios_intended cal gv divs = .ok res →
        ∀ row ∈ res.rows, row.effective_date < 2 ^ 32) := by
  constructor
  · intro f s hne h
    have h' :
        (if f.isEmpty then
          _write SQLITE_ADJUSTMENT_COLUMN_DTYPES (some f) none
        else
          match reencodeEffectiveDate f with
          | .error e => .error e
          | .ok f' => _write SQLITE_ADJUSTMENT_COLUMN_DTYPES (some f') none)
          = Except.ok s := h
    rw [if_neg (by simp [hne])] at h'
    cases hlook : List.lookup "effective_date" f.cols with
    | none =>
      have hre : reencodeEffectiveDate f = .error .keyError := by
        unfold reencodeEffectiveDate
        rw [hlook]
      rw [hre] at h'
      cases h'
    | some dt =>
      have hre : reencodeEffectiveDate f =
          .ok { f with cols := f.cols.map (fun nd =>
            if nd.1 = "effective_date" then (nd.1, Dtype.int64) else nd) } := by
        unfold reencodeEffectiveDate
        rw [hlook]
      rw [hre] at h'
      have hemp2 : ({ f with cols := f.cols.map (fun nd =>
          if nd.1 = "effective_date" then (nd.1, Dtype.int64) else nd) }
            : Frame).isEmpty = false := by
        simp only [Frame.isEmpty, Bool.or_eq_false_iff] at hne ⊢
        constructor
        · simpa [List.isEmpty_iff] using hne.1
        · exact hne.2
      have hs := _write_ok_nonempty SQLITE_ADJUSTMENT_COLUMN_DTYPES _ none s
        hemp2 h'
      rw [hs]
      exact lookup_reencode f.cols dt hlook
  · intro cal gv divs res h row hrow
    unfold calc_dividend_ratios_intended at h
    split at h
    · cases h
      simp at hrow
    · split at h
      · cases h
      · cases h
        unfold maskAndEncode at hrow
        rw [List.mem_map] at hrow
        obtain ⟨p, _, rfl⟩ := hrow
        exact encodeEffDate_lt _

/-- Witness for the amended C8: a concrete one-row ratio frame is stored
with an `int64` effective date, and a concrete ratio row produced by the
intended computation has its effective date in the uint32 range. -/
theorem C8_storage_encoding_witness :
    List.lookup "effective_date"
        (Frame.mk [("sid", .int64), ("effective_date", .int64),
                   ("ratio", .float64)] 1).cols
      = some Dtype.int64
    ∧ (RatioRow.mk 42 0 (1 - (1/2) / 50)).effective_date < 2 ^ 32 :=
  ⟨C8_storage_encoding_amended.1
      ⟨[("sid", .int64), ("effective_date", .uint32),
        ("ratio", .float64)], 1⟩ _ (by decide) rfl,
   C8_storage_encoding_amended.2 [100, 200]
      (fun sid d => if sid = 42 ∧ d = 100 then .price 50 else .noDataOnDate)
      [⟨42, 150, 0, 0, 0, 1/2⟩] ⟨[], [⟨42, 0, 1 - (1/2) / 50⟩]⟩ rfl
      _ (by simp)⟩

/-- Claim C9, counterexample: when per-row asset resolution raises, the
reader call propagates the exception without running `c.close()` — the
cursor is *not* closed on that exit path, contrary to the claim. -/
theorem C9_counterexample :
    (get_dividends_with_ex_date 0 [⟨7, 100, 0, 0, 0, 3⟩]
        (fun _ => (none : Option Nat)) [7] (100 * 10 ^ 9)).cursorClosed
      = false
    ∧ (get_dividends_with_ex_date 0 [⟨7, 100, 0, 0, 0, 3⟩]
        (fun _ => (none : Option Nat)) [7] (100 * 10 ^ 9)).result
      = .error () := by
  have hch : group_into_chunks 0 [7] = [[7]] := by
    simp [group_into_chunks]
  have hm : matchesQuery (100 * 10 ^ 9) [7] ⟨7, 100, 0, 0, 0, 3⟩ = true := by
    unfold matchesQuery
    rw [Bool.and_eq_true]
    constructor
    · rw [decide_eq_true_eq]
      norm_num
    · rfl
  have hrows : fetchedRows 0 [⟨7, 100, 0, 0, 0, 3⟩] [7] (100 * 10 ^ 9)
      = [⟨7, 100, 0, 0, 0, 3⟩] := by
    unfold fetchedRows
    rw [hch]
    norm_num at hm
    simp [hm]
  unfold get_dividends_with_ex_date
  rw [hrows]
  exact ⟨rfl, rfl⟩

/-- Claim C9 as amended: the cursor is closed exactly on the non-exception
path — `c.close()` runs if and only if the call returns normally; when
query-row resolution raises, the close is skipped and the exception
propagates with the cursor still open. -/
theorem C9_cursor_close_amended {α : Type} (k : Nat)
    (tbl : List StoredPayoutRow) (resolver : Int → Option α)
    (assets : List Int) (dateNs : Int) :
    (get_dividends_with_ex_date k tbl resolver assets dateNs).cursorClosed
        = true
      ↔ ∃ L, (get_dividends_with_ex_date k tbl resolver assets dateNs).result
          = .ok L := by
  unfold get_dividends_with_ex_date
  cases h : resolveRows resolver (fetchedRows k tbl assets dateNs) with
  | none => simp [h]
  | some ds => simp [h]

end Zipline
